import Mathlib

/-!
Verification of the worker handler in `handler.py` (ComfyUI serverless worker).

The development shallowly embeds the pieces of the source the claims are
about:

* the websocket monitoring loop of `handler` (lines 927-989),
* `_attempt_websocket_reconnect` (lines 96-164),
* the output-collection and result-aggregation tail of `handler`
  (lines 991-1165),
* `queue_workflow` (lines 358-460),
* `validate_input` and the entry of `handler` (lines 167-531).

Python JSON values are modelled by an inductive `Json` type; `dict.get`
calls on values that may not be dictionaries are modelled in the `Except`
monad, where `PyErr.attributeError` stands for Python's `AttributeError`
(which the receive loop's `except` clauses do not catch).
-/

/-- A parsed JSON value, as produced by Python's `json.loads`.
`null` also stands for Python `None`. -/
inductive Json where
  | null : Json
  | bool : Bool → Json
  | num : Int → Json
  | str : String → Json
  | arr : List Json → Json
  | obj : List (String × Json) → Json
deriving Repr

/-- Python exceptions that the embedded code can raise and that the
surrounding `except` clauses in the source do not catch. -/
inductive PyErr where
  | attributeError : PyErr
  | keyError : String → PyErr
  | typeError : PyErr
deriving Repr, DecidableEq

/-- `j.get k d` in Python: on a dict, the value at `k` (or the default `d`);
on any non-dict value, an `AttributeError`. -/
def pyGetD (j : Json) (k : String) (d : Json) : Except PyErr Json :=
  match j with
  | .obj kvs => .ok ((kvs.lookup k).getD d)
  | _ => .error .attributeError

/-- `j == s` for a Python string literal `s`: true exactly when `j` is that
string (Python equality between a string and a non-string is `False`). -/
def Json.isStr (j : Json) (s : String) : Bool :=
  match j with
  | .str t => t == s
  | _ => false

/-- `j is None` in Python (JSON `null` parses to `None`). -/
def Json.isNull (j : Json) : Bool :=
  match j with
  | .null => true
  | _ => false

/-- Whether a JSON value is an object (a Python dict). -/
def Json.isObj (j : Json) : Bool :=
  match j with
  | .obj _ => true
  | _ => false

/-- A rendering of a JSON value as Python's `str()` would interpolate it
into an f-string. Only the `str`/`null` cases matter to the claims. -/
def pyStr (j : Json) : String :=
  match j with
  | .null => "None"
  | .bool b => if b then "True" else "False"
  | .num n => toString n
  | .str s => s
  | .arr _ => "<list>"
  | .obj _ => "<dict>"

/-! ## The websocket monitoring loop (handler.py lines 927-989) -/

/-- One item obtained from the socket inside the `while True` loop:
a text frame (with `none` standing for a `json.JSONDecodeError`, which the
loop catches and ignores), a binary frame, or a receive timeout
(`WebSocketTimeoutException`, caught and ignored). -/
inductive Recv where
  | text : Option Json → Recv
  | binary : Recv
  | timeout : Recv
deriving Repr

/-- The effect of one loop iteration: keep listening, `break` with
`execution_done = True`, or `break` after appending an execution error. -/
inductive LoopStep where
  | continue_ : List String → LoopStep
  | completeDone : List String → LoopStep
  | failedErr : List String → LoopStep
deriving Repr, DecidableEq

/-- The error string appended for a matching `execution_error` event
(handler.py lines 951-956). -/
def execErrorMsg (nodeType nodeId excMsg : Json) : String :=
  "Workflow execution error: Node Type: " ++ pyStr nodeType ++
    ", Node ID: " ++ pyStr nodeId ++ ", Message: " ++ pyStr excMsg

/-- Processing of one decoded text message by the loop body
(handler.py lines 931-956), with Python attribute errors made explicit. -/
def processMsg (pid : String) (errs : List String) (j : Json) :
    Except PyErr LoopStep :=
  match pyGetD j "type" .null with
  | .error e => .error e
  | .ok ty =>
    if ty.isStr "status" then
      match pyGetD j "data" (.obj []) with
      | .error e => .error e
      | .ok data =>
        match pyGetD data "status" (.obj []) with
        | .error e => .error e
        | .ok sd =>
          match pyGetD sd "exec_info" (.obj []) with
          | .error e => .error e
          | .ok ei =>
            -- the queue_remaining lookup feeds the log line only
            match pyGetD ei "queue_remaining" (.str "N/A") with
            | .error e => .error e
            | .ok _ => .ok (.continue_ errs)
    else if ty.isStr "executing" then
      match pyGetD j "data" (.obj []) with
      | .error e => .error e
      | .ok data =>
        match pyGetD data "node" .null, pyGetD data "prompt_id" .null with
        | .error e, _ => .error e
        | _, .error e => .error e
        | .ok node, .ok pidv =>
          if node.isNull && pidv.isStr pid then
            .ok (.completeDone errs)
          else
            .ok (.continue_ errs)
    else if ty.isStr "execution_error" then
      match pyGetD j "data" (.obj []) with
      | .error e => .error e
      | .ok data =>
        match pyGetD data "prompt_id" .null with
        | .error e => .error e
        | .ok pidv =>
          if pidv.isStr pid then
            match pyGetD data "node_type" .null, pyGetD data "node_id" .null,
                pyGetD data "exception_message" .null with
            | .error e, _, _ => .error e
            | _, .error e, _ => .error e
            | _, _, .error e => .error e
            | .ok nt, .ok ni, .ok em =>
              .ok (.failedErr (errs ++ [execErrorMsg nt ni em]))
          else
            .ok (.continue_ errs)
    else
      .ok (.continue_ errs)

/-- Processing of one received item: invalid JSON and binary frames are
skipped, timeouts `continue`, text messages go through `processMsg`. -/
def processRecv (pid : String) (errs : List String) (r : Recv) :
    Except PyErr LoopStep :=
  match r with
  | .text none => .ok (.continue_ errs)
  | .text (some j) => processMsg pid errs j
  | .binary => .ok (.continue_ errs)
  | .timeout => .ok (.continue_ errs)

/-- The loop's exit state, over a finite prefix of received items:
`stillListening` means the prefix was consumed without a `break`. -/
inductive LoopExit where
  | stillListening : List String → LoopExit
  | complete : List String → LoopExit
  | failed : List String → LoopExit
deriving Repr, DecidableEq

/-- The `while True` receive loop of `handler` run over a finite sequence of
received items. -/
def monitorLoop (pid : String) : List Recv → List String → Except PyErr LoopExit
  | [], errs => .ok (.stillListening errs)
  | r :: rest, errs =>
    match processRecv pid errs r with
    | .error e => .error e
    | .ok (.continue_ e) => monitorLoop pid rest e
    | .ok (.completeDone e) => .ok (.complete e)
    | .ok (.failedErr e) => .ok (.failed e)

/-! Frame-shape predicates, used to state the claims. They follow the event
shapes of the backend websocket interface (`{type, data: {...}}`). -/

/-- A status event whose nested fields have the shapes the backend sends
(`data`, `data.status` and `data.status.exec_info` are objects when
present). -/
def statusFrameOK (j : Json) : Bool :=
  match j with
  | .obj kvs =>
    (((kvs.lookup "type").getD .null).isStr "status") &&
    (match (kvs.lookup "data").getD (.obj []) with
     | .obj dk =>
       (match (dk.lookup "status").getD (.obj []) with
        | .obj sk => ((sk.lookup "exec_info").getD (.obj [])).isObj
        | _ => false)
     | _ => false)
  | _ => false

/-- A progress event (any object frame whose `type` is `"progress"`). -/
def progressFrame (j : Json) : Bool :=
  match j with
  | .obj kvs => ((kvs.lookup "type").getD .null).isStr "progress"
  | _ => false

/-- An executing event whose `data.prompt_id` names a different job. -/
def executingOtherFrame (pid : String) (j : Json) : Bool :=
  match j with
  | .obj kvs =>
    (((kvs.lookup "type").getD .null).isStr "executing") &&
    (match (kvs.lookup "data").getD (.obj []) with
     | .obj dk => !(((dk.lookup "prompt_id").getD .null).isStr pid)
     | _ => false)
  | _ => false

/-- The terminal "complete" frame: an executing event for this job with an
empty/absent node field. -/
def completeFrame (pid : String) (j : Json) : Bool :=
  match j with
  | .obj kvs =>
    (((kvs.lookup "type").getD .null).isStr "executing") &&
    (match (kvs.lookup "data").getD (.obj []) with
     | .obj dk =>
       ((dk.lookup "node").getD .null).isNull &&
       ((dk.lookup "prompt_id").getD .null).isStr pid
     | _ => false)
  | _ => false

/-- The terminal "failed" frame: an execution_error event for this job. -/
def errorFrame (pid : String) (j : Json) : Bool :=
  match j with
  | .obj kvs =>
    (((kvs.lookup "type").getD .null).isStr "execution_error") &&
    (match (kvs.lookup "data").getD (.obj []) with
     | .obj dk => ((dk.lookup "prompt_id").getD .null).isStr pid
     | _ => false)
  | _ => false

/-- A received item that, per the claim, must never terminate the loop:
a well-shaped status or progress event, an executing event naming a
different job, or a receive timeout. -/
def benignRecv (pid : String) (r : Recv) : Bool :=
  match r with
  | .text (some j) => statusFrameOK j || progressFrame j || executingOtherFrame pid j
  | .text none => false
  | .binary => false
  | .timeout => true

/-! ## Websocket reconnection (`_attempt_websocket_reconnect`, lines 96-164)

The environment is a pair of oracles indexed by the attempt number:
`probe n` is the `reachable` field of `_comfy_server_status()` before
attempt `n`, and `conn n` is the outcome of `new_ws.connect` at attempt `n`
(`.ok` = connected, `.error e` = one of the caught connection exceptions).
-/

/-- The observable outcome of `_attempt_websocket_reconnect`: a successful
reconnect at some attempt, an immediate abort because the backend probe
reported unreachable (a `WebSocketConnectionClosedException` with the
"ComfyUI HTTP unreachable during websocket reconnect" message), or budget
exhaustion (a `WebSocketConnectionClosedException` carrying the last
connection error). -/
inductive ReconnectOutcome where
  | connected : Nat → ReconnectOutcome
  | unreachableAbort : ReconnectOutcome
  | exhausted : String → ReconnectOutcome
deriving Repr, DecidableEq

/-- The reconnect `for` loop, also counting the probes and socket connect
attempts actually performed: returns `(outcome, probes, connects)`.
`attempt` is the current index, `remaining` the attempts left,
`lastErr` the running `last_reconnect_error`. -/
def reconnectAux (probe : Nat → Bool) (conn : Nat → Except String Unit) :
    Nat → Nat → String → ReconnectOutcome × Nat × Nat
  | _, 0, lastErr => (.exhausted lastErr, 0, 0)
  | attempt, remaining + 1, _lastErr =>
    if probe attempt then
      match conn attempt with
      | .ok _ => (.connected attempt, 1, 1)
      | .error e =>
        let (o, p, c) := reconnectAux probe conn (attempt + 1) remaining e
        (o, p + 1, c + 1)
    else
      (.unreachableAbort, 1, 0)

/-- `_attempt_websocket_reconnect(ws_url, max_attempts, delay_s, initial_error)`
as a function of the probe/connect oracles. -/
def attemptWebsocketReconnect (probe : Nat → Bool) (conn : Nat → Except String Unit)
    (maxAttempts : Nat) (initialError : String) : ReconnectOutcome × Nat × Nat :=
  reconnectAux probe conn 0 maxAttempts initialError

/-! ## Output collection and result aggregation (handler.py lines 991-1165) -/

/-- One entry of a node output's `images` list in the history ledger:
the values of `image_info.get("filename")`, `image_info.get("subfolder", "")`
and `image_info.get("type")`. -/
structure ImageInfo where
  filename : Option String
  subfolder : String
  itype : Option String
deriving Repr, DecidableEq

/-- One node output container of the ledger; `images = none` models a
node output dict without an `"images"` key. -/
structure NodeOutput where
  images : Option (List ImageInfo)
deriving Repr, DecidableEq

/-- The ledger entry for one prompt id: its `outputs` dict as an ordered
association list from node id to node output. -/
structure PromptHistory where
  outputs : List (String × NodeOutput)
deriving Repr, DecidableEq

/-- One delivered asset in the handler's `output_data` list:
`{"filename": ..., "type": "s3_url" | "base64", "data": ...}`. -/
structure OutputEntry where
  filename : String
  otype : String
  data : String
deriving Repr, DecidableEq

/-- The collection environment: the byte-fetch oracle for
`get_image_data` (`none` = fetch failed, which the code records as an
error), whether `BUCKET_ENDPOINT_URL` is set, the S3 upload oracle for
`rp_upload.upload_image` (`.error` = the exception message), the base64
encoder, and the job id passed to the uploader. Bytes are modelled as
`List Nat`. -/
structure CollectEnv where
  fetch : String → String → Option String → Option (List Nat)
  bucketSet : Bool
  s3 : String → List Nat → Except String String
  b64 : List Nat → String
  jobId : String

/-- The collector's running state: `output_data`, `errors`, and an
instrumentation log of the `get_image_data` calls performed
(filename, subfolder, type). -/
structure CollectState where
  outputs : List OutputEntry
  errors : List String
  fetched : List (String × String × Option String)
deriving Repr, DecidableEq

/-- The error string for a failed byte fetch (line 1104). -/
def fetchFailMsg (filename : String) : String :=
  "Failed to fetch image data for " ++ filename ++ " from /view endpoint."

/-- The error string for a failed S3 upload (line 1072). -/
def s3FailMsg (filename msg : String) : String :=
  "Error uploading " ++ filename ++ " to S3: " ++ msg

/-- The error string for a missing filename (line 1035). The source
additionally interpolates the repr of the `image_info` dict at the end;
the model keeps the stable prefix of the message. -/
def missingFilenameMsg (nodeId : String) : String :=
  "Skipping image in node " ++ nodeId ++ " due to missing filename"

/-- Processing of one `image_info` entry (handler.py lines 1022-1105):
skip `temp` assets, record missing filenames, fetch bytes, then either
upload to S3 (when the bucket endpoint is configured) or inline as
base64. -/
def processImage (env : CollectEnv) (nodeId : String) (st : CollectState)
    (img : ImageInfo) : CollectState :=
  if img.itype == some "temp" then
    st
  else if img.filename == none || img.filename == some "" then
    { st with errors := st.errors ++ [missingFilenameMsg nodeId] }
  else
    let fname := img.filename.getD ""
    let st := { st with fetched := st.fetched ++ [(fname, img.subfolder, img.itype)] }
    match env.fetch fname img.subfolder img.itype with
    | some bytes =>
      if env.bucketSet then
        match env.s3 env.jobId bytes with
        | .ok url =>
          { st with outputs := st.outputs ++ [⟨fname, "s3_url", url⟩] }
        | .error msg =>
          { st with errors := st.errors ++ [s3FailMsg fname msg] }
      else
        { st with outputs := st.outputs ++ [⟨fname, "base64", env.b64 bytes⟩] }
    | none =>
      { st with errors := st.errors ++ [fetchFailMsg fname] }

/-- Processing of one node output (the body of the `for node_id, node_output`
loop): iterate its `images` list when present. -/
def processNode (env : CollectEnv) (st : CollectState)
    (node : String × NodeOutput) : CollectState :=
  match node.2.images with
  | none => st
  | some imgs => imgs.foldl (processImage env node.1) st

/-- The collection loop over all output containers (lines 1017-1105). -/
def collectNodes (env : CollectEnv) (nodes : List (String × NodeOutput))
    (st : CollectState) : CollectState :=
  nodes.foldl (processNode env) st

/-- The dictionary returned by `handler`: any of the keys
`images`, `errors`, `error`, `details`, `status` may be present. -/
structure FinalResult where
  images : Option (List OutputEntry)
  errors : Option (List String)
  error : Option String
  details : Option (List String)
  status : Option String
deriving Repr, DecidableEq

/-- A bare `{"error": msg}` return value. -/
def mkTopError (msg : String) : FinalResult :=
  { images := none, errors := none, error := some msg, details := none,
    status := none }

/-- The message of the NotFound failure (line 996). -/
def notFoundMsg (pid : String) : String :=
  "Prompt ID " ++ pid ++ " not found in history after execution."

/-- The warning recorded when the ledger entry has no outputs (line 1011). -/
def noOutputsMsg (pid : String) : String :=
  "No outputs found in history for prompt " ++ pid ++ "."

/-- The `ValueError` message raised when the loop exits without a terminal
confirmation (line 988); the handler's `except ValueError` turns it into a
`{"error": ...}` return. -/
def monitorExitMsg : String :=
  "Workflow monitoring loop exited without confirmation of completion or error."

/-- The final aggregation of `output_data` and `errors` into the returned
dictionary (handler.py lines 1138-1165). -/
def aggregateResult (outputData : List OutputEntry) (errors : List String) :
    FinalResult :=
  if outputData.isEmpty then
    if errors.isEmpty then
      { images := some [], errors := none, error := none, details := none,
        status := some "success_no_images" }
    else
      { images := none, errors := none, error := some "Job processing failed",
        details := some errors, status := none }
  else
    { images := some outputData,
      errors := if errors.isEmpty then none else some errors,
      error := none, details := none, status := none }

/-- Everything after the receive loop (handler.py lines 986-1165):
the no-confirmation guard, the history lookup with its NotFound branches,
the "no outputs" warning, asset collection, and final aggregation.
`executionDone` and `errs` are the loop's `execution_done` / `errors`;
`history` is the parsed ledger returned by `get_history`. -/
def afterLoop (env : CollectEnv) (pid : String) (executionDone : Bool)
    (errs : List String) (history : List (String × PromptHistory)) :
    FinalResult :=
  if !executionDone && errs.isEmpty then
    mkTopError monitorExitMsg
  else
    match history.lookup pid with
    | none =>
      if errs.isEmpty then
        mkTopError (notFoundMsg pid)
      else
        { images := none, errors := none,
          error := some "Job processing failed, prompt ID not found in history.",
          details := some (errs ++ [notFoundMsg pid]), status := none }
    | some ph =>
      let errs1 :=
        if ph.outputs.isEmpty && errs.isEmpty then errs ++ [noOutputsMsg pid]
        else errs
      let st := collectNodes env ph.outputs ⟨[], errs1, []⟩
      aggregateResult st.outputs st.errors

/-! ## Job submission (`queue_workflow`, handler.py lines 358-460) -/

/-- Python `pat in s` for strings: substring containment. -/
def containsSub (s pat : String) : Bool :=
  (s.splitOn pat).length != 1

/-- The outcome of the `requests.post` call in `queue_workflow`: either the
request itself raised (timeout, connection reset, ...), or a response with a
status code, a parsed JSON body (`none` = the body is not valid JSON) and
its raw text. -/
inductive PostResult where
  | netError : String → PostResult
  | resp : Nat → Option Json → String → PostResult
deriving Repr

/-- The observable outcome of `queue_workflow`: the parsed success body, a
raised `ValueError` (the permanent validation error), a
`requests.HTTPError` from `raise_for_status`, a transport-level requests
exception, or a `json.JSONDecodeError` from `response.json()` on a
success response (in Python a `ValueError` subclass). -/
inductive QueueResult where
  | ok : Json → QueueResult
  | valueError : String → QueueResult
  | httpError : Nat → QueueResult
  | netError : String → QueueResult
  | jsonDecodeError : QueueResult
deriving Repr

/-- The 400-branch of `queue_workflow` (lines 381-455) on a parsed JSON
object body: builds the `ValueError` message. `ckpts` is the checkpoint
list that `get_available_models()` would return (empty = none available);
`text` is `response.text`. -/
def queue400Msg (kvs : List (String × Json)) (ckpts : List String)
    (text : String) : Except PyErr String :=
  let base := "Workflow validation failed"
  let errorMessage :=
    match kvs.lookup "error" with
    | some (.obj eik) =>
      let m :=
        match eik.lookup "message" with
        | some v => pyStr v
        | none => base
      if (match eik.lookup "type" with
          | some v => v.isStr "prompt_outputs_failed_validation"
          | none => false) then base else m
    | some ei => pyStr ei
    | none => base
  let detailsE : Except PyErr (List String) :=
    match kvs.lookup "node_errors" with
    | none => .ok []
    | some (.obj nes) =>
      .ok ((nes.map (fun p =>
        match p.2 with
        | .obj nek =>
          nek.map (fun q => "Node " ++ p.1 ++ " (" ++ q.1 ++ "): " ++ pyStr q.2)
        | ne => ["Node " ++ p.1 ++ ": " ++ pyStr ne])).flatten)
    | some _ => .error .attributeError  -- `.items()` on a non-dict
  match detailsE with
  | .error e => .error e
  | .ok details =>
    if (match kvs.lookup "type" with
        | some v => v.isStr "prompt_outputs_failed_validation"
        | none => false) then
      let em :=
        match kvs.lookup "message" with
        | some v => pyStr v
        | none => "Workflow validation failed"
      if ckpts.isEmpty then
        .ok (em ++ "\n\nThis usually means a required model or parameter is not available." ++
          "\nNo checkpoint models appear to be available. Please check your model installation.")
      else
        .ok (em ++ "\n\nThis usually means a required model or parameter is not available." ++
          "\nAvailable checkpoint models: " ++ String.intercalate ", " ckpts)
    else if details.isEmpty then
      .ok (errorMessage ++ ". Raw response: " ++ text)
    else
      let dm := errorMessage ++ ":\n" ++
        String.intercalate "\n" (details.map (fun d => "• " ++ d))
      if details.any (fun d => containsSub d "not in list" && containsSub d "ckpt_name") then
        if ckpts.isEmpty then
          .ok (dm ++ "\n\nNo checkpoint models appear to be available. Please check your model installation.")
        else
          .ok (dm ++ "\n\nAvailable checkpoint models: " ++ String.intercalate ", " ckpts)
      else
        .ok dm

/-- `queue_workflow` as a function of the post outcome. A 400 response
enters the validation-error branch; any other status in 400-599 makes
`raise_for_status` raise a `requests.HTTPError`; other statuses return the
parsed body. On a 400 whose JSON body is not an object, the Python
membership tests and attribute accesses raise `TypeError`/`AttributeError`
as modelled below. -/
def queueWorkflow (post : PostResult) (ckpts : List String) :
    Except PyErr QueueResult :=
  match post with
  | .netError m => .ok (.netError m)
  | .resp status body text =>
    if status == 400 then
      match body with
      | none =>
        .ok (.valueError
          ("ComfyUI validation failed (could not parse error response): " ++ text))
      | some (.obj kvs) =>
        match queue400Msg kvs ckpts text with
        | .error e => .error e
        | .ok m => .ok (.valueError m)
      | some (.arr xs) =>
        if xs.any (fun e => e.isStr "error") then .error .typeError
        else if xs.any (fun e => e.isStr "node_errors") then .error .typeError
        else .error .attributeError
      | some (.str s) =>
        if containsSub s "error" then .error .typeError
        else .error .attributeError
      | some _ => .error .typeError
    else if 400 ≤ status && status < 600 then
      .ok (.httpError status)
    else
      match body with
      | some j => .ok (.ok j)
      | none => .ok .jsonDecodeError

/-! ## Input validation and the handler entry (lines 167-254 and 515-531) -/

/-- Python `k in j` for a JSON value: key membership on dicts, substring on
strings, element membership on lists, `TypeError` otherwise. -/
def hasKeyPy (j : Json) (k : String) : Except PyErr Bool :=
  match j with
  | .obj kvs => .ok (kvs.lookup k).isSome
  | .str s => .ok (containsSub s k)
  | .arr xs => .ok (xs.any (fun e => e.isStr k))
  | _ => .error .typeError

/-- The short-circuiting
`all("name" in image and "image" in image for image in images)`. -/
def imagesAllOk : List Json → Except PyErr Bool
  | [] => .ok true
  | im :: rest =>
    match hasKeyPy im "name" with
    | .error e => .error e
    | .ok false => .ok false
    | .ok true =>
      match hasKeyPy im "image" with
      | .error e => .error e
      | .ok false => .ok false
      | .ok true => imagesAllOk rest

/-- The `{"workflow": ..., "images": ...}` pair that `validate_input`
returns on success. -/
structure ValidatedData where
  workflow : Json
  images : Json
deriving Repr

/-- The body of `validate_input` after the optional string parse:
`Sum.inl` is the returned error message, `Sum.inr` the validated data. -/
def validateCore (ji : Json) : Except PyErr (String ⊕ ValidatedData) :=
  match pyGetD ji "workflow" .null with
  | .error e => .error e
  | .ok workflow =>
    if workflow.isNull then
      .ok (.inl "Missing 'workflow' parameter")
    else
      match pyGetD ji "images" .null with
      | .error e => .error e
      | .ok images =>
        if images.isNull then
          .ok (.inr ⟨workflow, images⟩)
        else
          match images with
          | .arr xs =>
            match imagesAllOk xs with
            | .error e => .error e
            | .ok true => .ok (.inr ⟨workflow, images⟩)
            | .ok false =>
              .ok (.inl "'images' must be a list of objects with 'name' and 'image' keys")
          | _ =>
            .ok (.inl "'images' must be a list of objects with 'name' and 'image' keys")

/-- `validate_input(job_input)`; `parse` models `json.loads` on string
inputs (`none` = `json.JSONDecodeError`). -/
def validateInput (parse : String → Option Json) (ji : Json) :
    Except PyErr (String ⊕ ValidatedData) :=
  match ji with
  | .null => .ok (.inl "Please provide input")
  | .str s =>
    match parse s with
    | none => .ok (.inl "Invalid JSON format in input")
    | some j => validateCore j
  | j => validateCore j

/-- Python `d[k]` on a dict: the value, or a `KeyError`. -/
def pySubscript (kvs : List (String × Json)) (k : String) : Except PyErr Json :=
  match kvs.lookup k with
  | some v => .ok v
  | none => .error (.keyError k)

/-- The `job` argument of `handler`: its `"input"` mapping and its id. -/
structure JobDict where
  input : List (String × Json)
  id : String

/-- The entry of `handler` (lines 515-531):
`job_input = job["input"]["fill.json"]` followed by `validate_input`;
a validation failure is returned as a `{"error": ...}` dictionary,
success hands the validated data to the rest of the handler. -/
def handlerStart (parse : String → Option Json) (job : JobDict) :
    Except PyErr (FinalResult ⊕ ValidatedData) :=
  match pySubscript job.input "fill.json" with
  | .error e => .error e
  | .ok ji =>
    match validateInput parse ji with
    | .error e => .error e
    | .ok (.inl msg) => .ok (.inl (mkTopError msg))
    | .ok (.inr vd) => .ok (.inr vd)

/-- An object frame whose `type` matches none of the three handled event
kinds (including an absent or non-string `type`). -/
def unknownTypeFrame (j : Json) : Bool :=
  match j with
  | .obj kvs =>
    let ty := (kvs.lookup "type").getD .null
    !(ty.isStr "status") && !(ty.isStr "executing") && !(ty.isStr "execution_error")
  | _ => false

/-! ## Lemmas about the receive loop -/

lemma processMsg_continue_errs {pid : String} {errs e : List String} {j : Json}
    (h : processMsg pid errs j = .ok (.continue_ e)) : e = errs := by
  cases j with
  | null => simp [processMsg, pyGetD] at h
  | bool b => simp [processMsg, pyGetD] at h
  | num n => simp [processMsg, pyGetD] at h
  | str s => simp [processMsg, pyGetD] at h
  | arr xs => simp [processMsg, pyGetD] at h
  | obj kvs =>
    simp only [processMsg, pyGetD] at h
    iterate 12 (all_goals try split at h)
    all_goals simp_all

lemma processRecv_continue_errs {pid : String} {errs e : List String} {r : Recv}
    (h : processRecv pid errs r = .ok (.continue_ e)) : e = errs := by
  cases r with
  | text oj =>
    cases oj with
    | none => simpa [processRecv] using h.symm
    | some j => exact processMsg_continue_errs (h := h)
  | binary => simpa [processRecv] using h.symm
  | timeout => simpa [processRecv] using h.symm

lemma Json.isObj_iff {j : Json} : j.isObj = true ↔ ∃ kvs, j = .obj kvs := by
  cases j <;> simp [Json.isObj]

lemma Json.isStr_iff {j : Json} {s : String} : j.isStr s = true ↔ j = .str s := by
  cases j <;> simp [Json.isStr]

lemma processMsg_status {pid : String} {errs : List String} {j : Json}
    (h : statusFrameOK j = true) :
    processMsg pid errs j = .ok (.continue_ errs) := by
  cases j with
  | null => simp [statusFrameOK] at h
  | bool b => simp [statusFrameOK] at h
  | num n => simp [statusFrameOK] at h
  | str s => simp [statusFrameOK] at h
  | arr xs => simp [statusFrameOK] at h
  | obj kvs =>
    simp only [statusFrameOK, Bool.and_eq_true] at h
    obtain ⟨h1, h2⟩ := h
    iterate 6 (all_goals try split at h2)
    all_goals try simp_all
    rw [Json.isObj_iff] at h2
    obtain ⟨ek, hek⟩ := h2
    simp_all [processMsg, pyGetD]

lemma processMsg_progress {pid : String} {errs : List String} {j : Json}
    (h : progressFrame j = true) :
    processMsg pid errs j = .ok (.continue_ errs) := by
  cases j with
  | null => simp [progressFrame] at h
  | bool b => simp [progressFrame] at h
  | num n => simp [progressFrame] at h
  | str s => simp [progressFrame] at h
  | arr xs => simp [progressFrame] at h
  | obj kvs =>
    simp only [progressFrame] at h
    rw [Json.isStr_iff] at h
    simp [processMsg, pyGetD, h, Json.isStr]

lemma processMsg_executingOther {pid : String} {errs : List String} {j : Json}
    (h : executingOtherFrame pid j = true) :
    processMsg pid errs j = .ok (.continue_ errs) := by
  cases j with
  | null => simp [executingOtherFrame] at h
  | bool b => simp [executingOtherFrame] at h
  | num n => simp [executingOtherFrame] at h
  | str s => simp [executingOtherFrame] at h
  | arr xs => simp [executingOtherFrame] at h
  | obj kvs =>
    simp only [executingOtherFrame, Bool.and_eq_true] at h
    obtain ⟨h1, h2⟩ := h
    rw [Json.isStr_iff] at h1
    iterate 4 (all_goals try split at h2)
    all_goals simp_all [processMsg, pyGetD, Json.isStr]

lemma processMsg_unknownType {pid : String} {errs : List String} {j : Json}
    (h : unknownTypeFrame j = true) :
    processMsg pid errs j = .ok (.continue_ errs) := by
  cases j with
  | null => simp [unknownTypeFrame] at h
  | bool b => simp [unknownTypeFrame] at h
  | num n => simp [unknownTypeFrame] at h
  | str s => simp [unknownTypeFrame] at h
  | arr xs => simp [unknownTypeFrame] at h
  | obj kvs =>
    simp only [unknownTypeFrame, Bool.and_eq_true, Bool.not_eq_true'] at h
    obtain ⟨⟨h1, h2⟩, h3⟩ := h
    simp [processMsg, pyGetD, h1, h2, h3]

lemma processRecv_benign {pid : String} {errs : List String} {r : Recv}
    (h : benignRecv pid r = true) :
    processRecv pid errs r = .ok (.continue_ errs) := by
  cases r with
  | text oj =>
    cases oj with
    | none => simp [benignRecv] at h
    | some j =>
      simp only [benignRecv, Bool.or_eq_true] at h
      rcases h with (h | h) | h
      · exact processMsg_status h
      · exact processMsg_progress h
      · exact processMsg_executingOther h
  | binary => simp [benignRecv] at h
  | timeout => rfl

lemma processMsg_complete {pid : String} {errs e : List String} {j : Json}
    (h : processMsg pid errs j = .ok (.completeDone e)) :
    completeFrame pid j = true ∧ e = errs := by
  cases j with
  | null => simp [processMsg, pyGetD] at h
  | bool b => simp [processMsg, pyGetD] at h
  | num n => simp [processMsg, pyGetD] at h
  | str s => simp [processMsg, pyGetD] at h
  | arr xs => simp [processMsg, pyGetD] at h
  | obj kvs =>
    simp only [processMsg, pyGetD] at h
    iterate 12 (all_goals try split at h)
    all_goals try simp_all [completeFrame]
    all_goals (cases hd : (List.lookup "data" kvs).getD (Json.obj []) <;>
      simp_all [completeFrame])

lemma processMsg_failed {pid : String} {errs e : List String} {j : Json}
    (h : processMsg pid errs j = .ok (.failedErr e)) :
    errorFrame pid j = true ∧ ∃ nt ni em, e = errs ++ [execErrorMsg nt ni em] := by
  cases j with
  | null => simp [processMsg, pyGetD] at h
  | bool b => simp [processMsg, pyGetD] at h
  | num n => simp [processMsg, pyGetD] at h
  | str s => simp [processMsg, pyGetD] at h
  | arr xs => simp [processMsg, pyGetD] at h
  | obj kvs =>
    simp only [processMsg, pyGetD] at h
    iterate 12 (all_goals try split at h)
    all_goals try simp_all [errorFrame]
    all_goals (cases hd : (List.lookup "data" kvs).getD (Json.obj []) <;>
      ((try simp_all [errorFrame]); (try exact ⟨_, _, _, h.symm⟩)))

lemma monitorLoop_benign {pid : String} {frames : List Recv} {errs : List String}
    (h : ∀ f ∈ frames, benignRecv pid f = true) :
    monitorLoop pid frames errs = .ok (.stillListening errs) := by
  induction frames with
  | nil => rfl
  | cons r rest ih =>
    simp only [monitorLoop, processRecv_benign (h r (by simp))]
    exact ih (fun f hf => h f (by simp [hf]))

lemma monitorLoop_complete {pid : String} {frames : List Recv} {errs0 e : List String}
    (h : monitorLoop pid frames errs0 = .ok (.complete e)) :
    (∃ j, Recv.text (some j) ∈ frames ∧ completeFrame pid j = true) ∧ e = errs0 := by
  induction frames generalizing errs0 with
  | nil => simp [monitorLoop] at h
  | cons r rest ih =>
    simp only [monitorLoop] at h
    cases hr : processRecv pid errs0 r with
    | error err => rw [hr] at h; simp at h
    | ok st =>
      rw [hr] at h
      cases st with
      | continue_ e1 =>
        simp only [] at h
        have he1 := processRecv_continue_errs hr
        subst he1
        obtain ⟨⟨j, hj, hc⟩, he⟩ := ih h
        exact ⟨⟨j, by simp [hj], hc⟩, he⟩
      | completeDone e1 =>
        simp only [Except.ok.injEq, LoopExit.complete.injEq] at h
        subst h
        cases r with
        | text oj =>
          cases oj with
          | none => simp [processRecv] at hr
          | some j =>
            obtain ⟨hc, he1⟩ := processMsg_complete (h := hr)
            exact ⟨⟨j, by simp, hc⟩, he1⟩
        | binary => simp [processRecv] at hr
        | timeout => simp [processRecv] at hr
      | failedErr e1 => simp at h

lemma monitorLoop_failed {pid : String} {frames : List Recv} {errs0 e : List String}
    (h : monitorLoop pid frames errs0 = .ok (.failed e)) :
    (∃ j, Recv.text (some j) ∈ frames ∧ errorFrame pid j = true) ∧
      ∃ nt ni em, e = errs0 ++ [execErrorMsg nt ni em] := by
  induction frames generalizing errs0 with
  | nil => simp [monitorLoop] at h
  | cons r rest ih =>
    simp only [monitorLoop] at h
    cases hr : processRecv pid errs0 r with
    | error err => rw [hr] at h; simp at h
    | ok st =>
      rw [hr] at h
      cases st with
      | continue_ e1 =>
        simp only [] at h
        have he1 := processRecv_continue_errs hr
        subst he1
        obtain ⟨⟨j, hj, hc⟩, he⟩ := ih h
        exact ⟨⟨j, by simp [hj], hc⟩, he⟩
      | completeDone e1 => simp at h
      | failedErr e1 =>
        simp only [Except.ok.injEq, LoopExit.failed.injEq] at h
        subst h
        cases r with
        | text oj =>
          cases oj with
          | none => simp [processRecv] at hr
          | some j =>
            obtain ⟨hc, he1⟩ := processMsg_failed (h := hr)
            exact ⟨⟨j, by simp, hc⟩, he1⟩
        | binary => simp [processRecv] at hr
        | timeout => simp [processRecv] at hr

/-- C1: the receive loop exits as Complete only when a matching
`executing` event with an empty/absent node arrives, exits as Failed only
when a matching `execution_error` event arrives, and a sequence of
status events, progress events, executing events naming a different
prompt id, and receive timeouts never terminates the loop. -/
theorem spec_c1_loop_exit_contract (pid : String) (frames : List Recv)
    (e : List String) :
    (monitorLoop pid frames [] = .ok (.complete e) →
      ∃ j, Recv.text (some j) ∈ frames ∧ completeFrame pid j = true) ∧
    (monitorLoop pid frames [] = .ok (.failed e) →
      ∃ j, Recv.text (some j) ∈ frames ∧ errorFrame pid j = true) ∧
    ((∀ f ∈ frames, benignRecv pid f = true) →
      monitorLoop pid frames [] = .ok (.stillListening [])) :=
  ⟨fun h => (monitorLoop_complete h).1,
   fun h => (monitorLoop_failed h).1,
   fun h => monitorLoop_benign h⟩

/-- Witness for C1: a concrete run over a status event, a progress event,
an executing event for another prompt and a receive timeout leaves the
loop still listening. -/
theorem spec_c1_loop_exit_contract_witness :
    monitorLoop "p1"
      [Recv.text (some (.obj [("type", .str "status"),
          ("data", .obj [("status", .obj [("exec_info",
            .obj [("queue_remaining", .num 2)])])])])),
       Recv.text (some (.obj [("type", .str "progress")])),
       Recv.text (some (.obj [("type", .str "executing"),
          ("data", .obj [("node", .str "7"), ("prompt_id", .str "other")])])),
       Recv.timeout] [] = .ok (.stillListening []) :=
  (spec_c1_loop_exit_contract "p1" _ []).2.2 (by decide)

/-- C9 (amended): non-JSON text frames, binary frames and JSON **object**
frames with an unknown type are discarded and the loop keeps listening;
a well-formed JSON frame that is not an object raises an
`AttributeError` out of the receive loop (see the counterexample). -/
theorem spec_c9_discard_amended (pid : String) (errs : List String) :
    processRecv pid errs (.text none) = .ok (.continue_ errs) ∧
    processRecv pid errs .binary = .ok (.continue_ errs) ∧
    (∀ j, unknownTypeFrame j = true →
      processRecv pid errs (.text (some j)) = .ok (.continue_ errs)) :=
  ⟨rfl, rfl, fun _ h => processMsg_unknownType h⟩

/-- Witness for C9 (amended): an object frame with an unrecognized type is
discarded. -/
theorem spec_c9_discard_amended_witness :
    processRecv "p" [] (.text (some (.obj [("type", Json.str "weird")]))) =
      .ok (.continue_ []) :=
  (spec_c9_discard_amended "p" []).2.2 _ (by decide)

/-- Counterexample to C9 as stated: the frame `"[]"` is well-formed JSON
that does not match a known event shape, yet processing it raises an
`AttributeError` out of the receive loop (`message.get` on a list) instead
of being discarded. -/
theorem spec_c9_counterexample :
    monitorLoop "p" [Recv.text (some (.arr []))] [] = .error .attributeError := by
  rfl

/-! ## Lemmas about `_attempt_websocket_reconnect` -/

lemma reconnectAux_exhaust (probe : Nat → Bool) (conn : Nat → Except String Unit)
    (errOf : Nat → String) :
    ∀ (r a : Nat) (le : String),
      (∀ j, j < r → probe (a + j) = true ∧ conn (a + j) = .error (errOf (a + j))) →
      0 < r →
      reconnectAux probe conn a r le = (.exhausted (errOf (a + r - 1)), r, r) := by
  intro r
  induction r with
  | zero => intro a le _ hr; omega
  | succ r ih =>
    intro a le h _
    have hp := (h 0 (by omega)).1
    have hc := (h 0 (by omega)).2
    simp only [Nat.add_zero] at hp hc
    simp only [reconnectAux, hp, if_true, hc]
    cases r with
    | zero => simp [reconnectAux]
    | succ r' =>
      have hrec := ih (a + 1) (errOf a) (fun j hj => by
        have hh := h (j + 1) (by omega)
        have : a + (j + 1) = a + 1 + j := by omega
        rwa [this] at hh) (by omega)
      rw [hrec]
      have : a + 1 + (r' + 1) - 1 = a + (r' + 1 + 1) - 1 := by omega
      rw [this]

lemma reconnectAux_abort (probe : Nat → Bool) (conn : Nat → Except String Unit) :
    ∀ (k r a : Nat) (le : String),
      k < r →
      (∀ j, j < k → probe (a + j) = true ∧ ∃ e, conn (a + j) = .error e) →
      probe (a + k) = false →
      reconnectAux probe conn a r le = (.unreachableAbort, k + 1, k) := by
  intro k
  induction k with
  | zero =>
    intro r a le hr _ hp
    cases r with
    | zero => omega
    | succ r' =>
      simp only [Nat.add_zero] at hp
      simp [reconnectAux, hp]
  | succ k ih =>
    intro r a le hr h hp
    cases r with
    | zero => omega
    | succ r' =>
      have hp0 := (h 0 (by omega)).1
      obtain ⟨e, hc0⟩ := (h 0 (by omega)).2
      simp only [Nat.add_zero] at hp0 hc0
      simp only [reconnectAux, hp0, if_true, hc0]
      have hrec := ih r' (a + 1) e (by omega) (fun j hj => by
        have hh := h (j + 1) (by omega)
        have : a + (j + 1) = a + 1 + j := by omega
        rwa [this] at hh) (by
        have : a + 1 + k = a + (k + 1) := by omega
        rwa [this])
      rw [hrec]

/-- C2: during reconnection, the backend probe runs before every socket
attempt. If, after `k` failed attempts (each preceded by a successful
probe), the probe before attempt `k` reports unreachable, the function
aborts at once — `k + 1` probes but only `k` socket connects were
performed, and the outcome models the raised
`WebSocketConnectionClosedException`. If every probe succeeds and every
connect in the budget fails, the raised error carries the last connection
error. -/
theorem spec_c2_reconnect (probe : Nat → Bool) (conn : Nat → Except String Unit)
    (errOf : Nat → String) (maxAttempts k : Nat) (initialError : String) :
    (k < maxAttempts →
      (∀ j, j < k → probe j = true ∧ ∃ e, conn j = .error e) →
      probe k = false →
      attemptWebsocketReconnect probe conn maxAttempts initialError =
        (.unreachableAbort, k + 1, k)) ∧
    ((∀ j, j < maxAttempts → probe j = true ∧ conn j = .error (errOf j)) →
      0 < maxAttempts →
      attemptWebsocketReconnect probe conn maxAttempts initialError =
        (.exhausted (errOf (maxAttempts - 1)), maxAttempts, maxAttempts)) := by
  constructor
  · intro hk h hp
    have := reconnectAux_abort probe conn k maxAttempts 0 initialError hk
      (fun j hj => by simpa using h j hj) (by simpa using hp)
    simpa [attemptWebsocketReconnect] using this
  · intro h hm
    have := reconnectAux_exhaust probe conn errOf maxAttempts 0 initialError
      (fun j hj => by simpa using h j hj) hm
    simpa [attemptWebsocketReconnect] using this

/-- Witness for C2: with a probe that fails before the third attempt and a
connect that always fails, the reconnect aborts after two socket attempts
and three probes. -/
theorem spec_c2_reconnect_witness :
    attemptWebsocketReconnect (fun n => decide (n < 2))
      (fun _ => .error "refused") 5 "init" = (.unreachableAbort, 3, 2) :=
  (spec_c2_reconnect (fun n => decide (n < 2)) (fun _ => .error "refused")
      (fun _ => "refused") 5 2 "init").1 (by decide)
    (fun j hj => ⟨decide_eq_true hj, "refused", rfl⟩) (by decide)

/-! ## Lemmas about the output collector -/

lemma processImage_split (env : CollectEnv) (nid : String) (st : CollectState)
    (img : ImageInfo) :
    processImage env nid st img =
      ⟨st.outputs ++ (processImage env nid ⟨[], [], []⟩ img).outputs,
       st.errors ++ (processImage env nid ⟨[], [], []⟩ img).errors,
       st.fetched ++ (processImage env nid ⟨[], [], []⟩ img).fetched⟩ := by
  unfold processImage
  iterate 4 (all_goals try split)
  all_goals try simp
  all_goals (cases hf : env.fetch (img.filename.getD "") img.subfolder img.itype <;>
    simp [hf])
  all_goals (rename_i bytes
             cases hs : env.s3 env.jobId bytes <;> simp [hs])

lemma foldl_processImage_split (env : CollectEnv) (nid : String)
    (imgs : List ImageInfo) (st : CollectState) :
    imgs.foldl (processImage env nid) st =
      ⟨st.outputs ++ (imgs.foldl (processImage env nid) ⟨[], [], []⟩).outputs,
       st.errors ++ (imgs.foldl (processImage env nid) ⟨[], [], []⟩).errors,
       st.fetched ++ (imgs.foldl (processImage env nid) ⟨[], [], []⟩).fetched⟩ := by
  induction imgs generalizing st with
  | nil => cases st; simp
  | cons img rest ih =>
    rw [List.foldl_cons, List.foldl_cons]
    rw [ih (processImage env nid st img),
      ih (processImage env nid ⟨[], [], []⟩ img)]
    rw [processImage_split]
    simp

lemma processNode_split (env : CollectEnv) (st : CollectState)
    (node : String × NodeOutput) :
    processNode env st node =
      ⟨st.outputs ++ (processNode env ⟨[], [], []⟩ node).outputs,
       st.errors ++ (processNode env ⟨[], [], []⟩ node).errors,
       st.fetched ++ (processNode env ⟨[], [], []⟩ node).fetched⟩ := by
  unfold processNode
  cases node.2.images with
  | none => cases st; simp
  | some imgs => exact foldl_processImage_split env node.1 imgs st

lemma collectNodes_cons (env : CollectEnv) (node : String × NodeOutput)
    (rest : List (String × NodeOutput)) (st : CollectState) :
    collectNodes env (node :: rest) st =
      collectNodes env rest (processNode env st node) := rfl

lemma collectNodes_split (env : CollectEnv) (nodes : List (String × NodeOutput))
    (st : CollectState) :
    collectNodes env nodes st =
      ⟨st.outputs ++ (collectNodes env nodes ⟨[], [], []⟩).outputs,
       st.errors ++ (collectNodes env nodes ⟨[], [], []⟩).errors,
       st.fetched ++ (collectNodes env nodes ⟨[], [], []⟩).fetched⟩ := by
  induction nodes generalizing st with
  | nil => cases st; simp [collectNodes]
  | cons node rest ih =>
    rw [collectNodes_cons, collectNodes_cons]
    rw [ih (processNode env st node), ih (processNode env ⟨[], [], []⟩ node)]
    rw [processNode_split]
    simp

lemma processImage_temp (env : CollectEnv) (nid : String) (st : CollectState)
    (img : ImageInfo) (h : img.itype = some "temp") :
    processImage env nid st img = st := by
  simp [processImage, h]

/-- Removal of the transient (`type == "temp"`) entries from a node
output's image list. -/
def dropTempNode (n : String × NodeOutput) : String × NodeOutput :=
  (n.1, ⟨n.2.images.map (fun l => l.filter (fun i => !(i.itype == some "temp")))⟩)

/-- Removal of the transient image entries from a whole ledger. -/
def dropTempHistory (h : List (String × PromptHistory)) :
    List (String × PromptHistory) :=
  h.map (fun p => (p.1, ⟨p.2.outputs.map dropTempNode⟩))

lemma foldl_processImage_filter (env : CollectEnv) (nid : String)
    (imgs : List ImageInfo) (st : CollectState) :
    imgs.foldl (processImage env nid) st =
      (imgs.filter (fun i => !(i.itype == some "temp"))).foldl
        (processImage env nid) st := by
  induction imgs generalizing st with
  | nil => rfl
  | cons img rest ih =>
    by_cases h : img.itype = some "temp"
    · rw [List.foldl_cons, processImage_temp env nid st img h, List.filter_cons]
      have hp : (!(img.itype == some "temp")) = false := by simp [h]
      simp only [hp, Bool.false_eq_true, if_false]
      exact ih st
    · rw [List.foldl_cons, List.filter_cons]
      have hp : (!(img.itype == some "temp")) = true := by simp [h]
      simp only [hp, if_true]
      rw [List.foldl_cons]
      exact ih (processImage env nid st img)

lemma processNode_filter (env : CollectEnv) (st : CollectState)
    (n : String × NodeOutput) :
    processNode env st n = processNode env st (dropTempNode n) := by
  unfold processNode dropTempNode
  cases h : n.2.images with
  | none => simp [h]
  | some imgs =>
    simp only [h, Option.map_some']
    exact foldl_processImage_filter env n.1 imgs st

lemma collectNodes_filter (env : CollectEnv) (nodes : List (String × NodeOutput))
    (st : CollectState) :
    collectNodes env nodes st = collectNodes env (nodes.map dropTempNode) st := by
  induction nodes generalizing st with
  | nil => rfl
  | cons n rest ih =>
    rw [List.map_cons, collectNodes_cons, collectNodes_cons, ← processNode_filter]
    exact ih _

lemma processImage_empty_fetched (env : CollectEnv) (nid : String)
    (img : ImageInfo) :
    (processImage env nid ⟨[], [], []⟩ img).fetched = [] ∨
    (processImage env nid ⟨[], [], []⟩ img).fetched =
      [(img.filename.getD "", img.subfolder, img.itype)] := by
  unfold processImage
  iterate 4 (all_goals try split)
  all_goals try simp
  all_goals (cases hf : env.fetch (img.filename.getD "") img.subfolder img.itype <;>
    simp [hf])
  all_goals (rename_i bytes
             cases hs : env.s3 env.jobId bytes <;> simp [hs])

lemma processImage_fetched_nonTemp (env : CollectEnv) (nid : String)
    (st : CollectState) (img : ImageInfo)
    (h : (st.fetched.all fun f => !(f.2.2 == some "temp")) = true) :
    ((processImage env nid st img).fetched.all
      fun f => !(f.2.2 == some "temp")) = true := by
  by_cases ht : img.itype = some "temp"
  · rw [processImage_temp env nid st img ht]; exact h
  · rw [processImage_split]
    rcases processImage_empty_fetched env nid img with he | he <;>
      simp [List.all_append, he, h, ht]

lemma foldl_processImage_fetched_nonTemp (env : CollectEnv) (nid : String)
    (imgs : List ImageInfo) (st : CollectState)
    (h : (st.fetched.all fun f => !(f.2.2 == some "temp")) = true) :
    ((imgs.foldl (processImage env nid) st).fetched.all
      fun f => !(f.2.2 == some "temp")) = true := by
  induction imgs generalizing st with
  | nil => exact h
  | cons img rest ih =>
    rw [List.foldl_cons]
    exact ih _ (processImage_fetched_nonTemp env nid st img h)

lemma collectNodes_fetched_nonTemp (env : CollectEnv)
    (nodes : List (String × NodeOutput)) (st : CollectState)
    (h : (st.fetched.all fun f => !(f.2.2 == some "temp")) = true) :
    ((collectNodes env nodes st).fetched.all
      fun f => !(f.2.2 == some "temp")) = true := by
  induction nodes generalizing st with
  | nil => exact h
  | cons n rest ih =>
    rw [collectNodes_cons]
    refine ih _ ?_
    unfold processNode
    cases hn : n.2.images with
    | none => exact h
    | some imgs => exact foldl_processImage_fetched_nonTemp env n.1 imgs st h

lemma lookup_dropTempHistory (history : List (String × PromptHistory))
    (pid : String) :
    (dropTempHistory history).lookup pid =
      (history.lookup pid).map (fun ph => ⟨ph.outputs.map dropTempNode⟩) := by
  induction history with
  | nil => rfl
  | cons p rest ih =>
    by_cases h : pid == p.1
    · simp [dropTempHistory, List.lookup, h]
    · simpa [dropTempHistory, List.lookup, h] using ih

lemma afterLoop_dropTemp (env : CollectEnv) (pid : String) (done : Bool)
    (errs : List String) (history : List (String × PromptHistory)) :
    afterLoop env pid done errs (dropTempHistory history) =
      afterLoop env pid done errs history := by
  unfold afterLoop
  rw [lookup_dropTempHistory]
  cases h : history.lookup pid with
  | none => simp
  | some ph =>
    simp only [Option.map_some']
    have hie : (ph.outputs.map dropTempNode).isEmpty = ph.outputs.isEmpty := by
      cases ph.outputs <;> simp
    rw [hie, ← collectNodes_filter]

/-- C4: transient assets never reach the result. Collection over any ledger
equals collection over the ledger with all `temp` entries removed (so the
returned `JobResult` is unchanged and no error entry comes from skipping),
and no `temp` asset is ever passed to `get_image_data`. -/
theorem spec_c4_no_temp_in_result (env : CollectEnv) (pid : String) (done : Bool)
    (errs errs0 : List String) (history : List (String × PromptHistory))
    (nodes : List (String × NodeOutput)) :
    afterLoop env pid done errs (dropTempHistory history) =
      afterLoop env pid done errs history ∧
    collectNodes env nodes ⟨[], errs0, []⟩ =
      collectNodes env (nodes.map dropTempNode) ⟨[], errs0, []⟩ ∧
    ((collectNodes env nodes ⟨[], errs0, []⟩).fetched.all
      fun f => !(f.2.2 == some "temp")) = true :=
  ⟨afterLoop_dropTemp env pid done errs history,
   collectNodes_filter env nodes ⟨[], errs0, []⟩,
   collectNodes_fetched_nonTemp env nodes ⟨[], errs0, []⟩ rfl⟩

/-- C8: the final aggregation returns both lists when assets and errors are
both present, a top-level failure object when there are errors but no
assets, and an empty-asset success when there are neither. -/
theorem spec_c8_result_shapes (outs : List OutputEntry) (errs : List String) :
    (outs ≠ [] → errs ≠ [] →
      aggregateResult outs errs =
        { images := some outs, errors := some errs, error := none,
          details := none, status := none }) ∧
    (outs = [] → errs ≠ [] →
      aggregateResult outs errs =
        { images := none, errors := none, error := some "Job processing failed",
          details := some errs, status := none }) ∧
    (outs = [] → errs = [] →
      aggregateResult outs errs =
        { images := some [], errors := none, error := none, details := none,
          status := some "success_no_images" }) := by
  refine ⟨fun h1 h2 => ?_, fun h1 h2 => ?_, fun h1 h2 => ?_⟩ <;>
    simp [aggregateResult, h1, h2]

/-- Witness for C8: zero assets and one error yield the failure object. -/
theorem spec_c8_result_shapes_witness :
    aggregateResult [] ["e1"] =
      { images := none, errors := none, error := some "Job processing failed",
        details := some ["e1"], status := none } :=
  (spec_c8_result_shapes [] ["e1"]).2.1 rfl (by decide)

/-- C5 (amended): a prompt id absent from the ledger yields the NotFound
failure object (with accumulated details when errors exist); a present id
with an **empty outputs dict** also yields a failure object carrying a
"No outputs found" warning (or the prior errors) — not a zero-asset
success. -/
theorem spec_c5_ledger_amended (env : CollectEnv) (pid : String) (done : Bool)
    (errs : List String) (history : List (String × PromptHistory)) :
    (done = true ∨ errs ≠ []) →
    ((history.lookup pid = none →
      afterLoop env pid done errs history =
        (if errs.isEmpty then mkTopError (notFoundMsg pid)
         else
           { images := none, errors := none,
             error := some "Job processing failed, prompt ID not found in history.",
             details := some (errs ++ [notFoundMsg pid]), status := none })) ∧
     (∀ ph, history.lookup pid = some ph → ph.outputs = [] →
       afterLoop env pid done errs history =
         { images := none, errors := none,
           error := some "Job processing failed",
           details := some (if errs.isEmpty then [noOutputsMsg pid] else errs),
           status := none })) := by
  intro hterm
  have hguard : (!done && errs.isEmpty) = false := by
    rcases hterm with h | h
    · simp [h]
    · simp [h]
  constructor
  · intro hl
    unfold afterLoop
    rw [hguard, hl]
    rfl
  · intro ph hl hout
    unfold afterLoop
    rw [hguard, hl]
    simp only [hout, List.isEmpty_nil, Bool.true_and]
    by_cases he : errs.isEmpty
    · have he' : errs = [] := by simpa using he
      simp [he', collectNodes, aggregateResult]
    · have he' : errs ≠ [] := by simpa using he
      simp [he', collectNodes, aggregateResult, he]

/-- A collection environment whose oracles are never consulted (used for
runs with empty or absent outputs). -/
def envTriv : CollectEnv :=
  ⟨fun _ _ _ => none, false, fun _ _ => .error "", fun _ => "", ""⟩

/-- Counterexample to C5 as stated: a ledger that contains the prompt id
but lists no outputs is returned as a top-level failure object with a
"No outputs found" detail — not as a success with zero assets. -/
theorem spec_c5_counterexample :
    afterLoop envTriv "p" true [] [("p", ⟨[]⟩)] =
      { images := none, errors := none, error := some "Job processing failed",
        details := some ["No outputs found in history for prompt p."],
        status := none } := by rfl

/-- Witness for C5 (amended): with an id absent from the ledger the
NotFound failure object is returned. -/
theorem spec_c5_ledger_amended_witness :
    afterLoop envTriv "q" true [] [("p", ⟨[]⟩)] =
      mkTopError (notFoundMsg "q") :=
  (spec_c5_ledger_amended envTriv "q" true [] [("p", ⟨[]⟩)] (Or.inl rfl)).1 rfl

/-- C3: when the loop exits via a matching `execution_error`, the error
list holds exactly the captured node-type/node-id/message entry, the
history ledger is still consulted and collection still runs: the final
result is the aggregation of the collected assets (identical to those of
an error-free run over the same ledger) together with the error entry. -/
theorem spec_c3_error_still_collects (env : CollectEnv) (pid : String)
    (frames : List Recv) (errs : List String)
    (history : List (String × PromptHistory)) (ph : PromptHistory)
    (hloop : monitorLoop pid frames [] = .ok (.failed errs))
    (hhist : history.lookup pid = some ph) :
    ∃ nt ni em,
      errs = [execErrorMsg nt ni em] ∧
      afterLoop env pid false errs history =
        aggregateResult (collectNodes env ph.outputs ⟨[], errs, []⟩).outputs
          (collectNodes env ph.outputs ⟨[], errs, []⟩).errors ∧
      (collectNodes env ph.outputs ⟨[], errs, []⟩).outputs =
        (collectNodes env ph.outputs ⟨[], [], []⟩).outputs ∧
      ((collectNodes env ph.outputs ⟨[], errs, []⟩).outputs ≠ [] →
        (afterLoop env pid false errs history).images =
          some (collectNodes env ph.outputs ⟨[], errs, []⟩).outputs ∧
        ∃ tl, (afterLoop env pid false errs history).errors =
          some (errs ++ tl)) := by
  obtain ⟨-, nt, ni, em, herrs⟩ := monitorLoop_failed hloop
  rw [List.nil_append] at herrs
  have hne : errs ≠ [] := by rw [herrs]; simp
  have hie : errs.isEmpty = false := by
    cases errs with
    | nil => exact absurd rfl hne
    | cons a l => rfl
  have hAfter : afterLoop env pid false errs history =
      aggregateResult (collectNodes env ph.outputs ⟨[], errs, []⟩).outputs
        (collectNodes env ph.outputs ⟨[], errs, []⟩).errors := by
    unfold afterLoop
    rw [hhist]
    simp [hie]
  have hsplit := collectNodes_split env ph.outputs ⟨[], errs, []⟩
  have herrsplit : (collectNodes env ph.outputs ⟨[], errs, []⟩).errors =
      errs ++ (collectNodes env ph.outputs ⟨[], [], []⟩).errors := by
    rw [hsplit]
  refine ⟨nt, ni, em, herrs, hAfter, ?_, ?_⟩
  · rw [collectNodes_split env ph.outputs ⟨[], errs, []⟩,
      collectNodes_split env ph.outputs ⟨[], [], []⟩]
    simp
  · intro ho
    have houts : (collectNodes env ph.outputs ⟨[], errs, []⟩).outputs.isEmpty = false := by
      cases hc : (collectNodes env ph.outputs ⟨[], errs, []⟩).outputs with
      | nil => exact absurd hc ho
      | cons a l => rfl
    have herrne : (collectNodes env ph.outputs ⟨[], errs, []⟩).errors.isEmpty = false := by
      rw [herrsplit]
      cases errs with
      | nil => exact absurd rfl hne
      | cons a l => rfl
    refine ⟨?_, (collectNodes env ph.outputs ⟨[], [], []⟩).errors, ?_⟩
    · rw [hAfter]
      simp [aggregateResult, houts]
    · rw [hAfter, ← herrsplit]
      simp [aggregateResult, houts, herrne]

/-- The base64-path collection environment used by concrete runs:
every fetch succeeds, no bucket endpoint is configured. -/
def envB64 : CollectEnv :=
  ⟨fun _ _ _ => some [7], false, fun _ _ => .error "", fun _ => "imgdata", "job-1"⟩

/-- A ledger with one prompt owning one node that produced one
non-transient image. -/
def histOne : List (String × PromptHistory) :=
  [("p", ⟨[("9", ⟨some [⟨some "a.png", "", some "output"⟩]⟩)]⟩)]

/-- The websocket frame of a matching execution error. -/
def execErrorFrame : Json :=
  .obj [("type", .str "execution_error"),
        ("data", .obj [("prompt_id", .str "p"), ("node_type", .str "T"),
                       ("node_id", .num 3), ("exception_message", .str "boom")])]

/-- Witness for C3: a run that fails on an execution error still returns
the previously produced asset, inlined, in the result's image list. -/
theorem spec_c3_error_still_collects_witness :
    (afterLoop envB64 "p" false
        ["Workflow execution error: Node Type: T, Node ID: 3, Message: boom"]
        histOne).images = some [⟨"a.png", "base64", "imgdata"⟩] := by
  obtain ⟨nt, ni, em, h1, h2, h3, h4⟩ :=
    spec_c3_error_still_collects envB64 "p" [Recv.text (some execErrorFrame)]
      ["Workflow execution error: Node Type: T, Node ID: 3, Message: boom"]
      histOne ⟨[("9", ⟨some [⟨some "a.png", "", some "output"⟩]⟩)]⟩ rfl rfl
  exact (h4 (by decide)).1

/-- C6 (amended): a fetched asset is inlined as base64 only when no bucket
endpoint is configured; when the Artifact Sink (S3) is configured and its
upload fails, the asset is **not** inlined — an "Error uploading ... to S3"
entry is recorded and the asset is absent from `output_data`. -/
theorem spec_c6_sink_amended (env : CollectEnv) (nid : String)
    (st : CollectState) (img : ImageInfo) (fname : String) (bytes : List Nat)
    (hfn : img.filename = some fname) (hne : fname ≠ "")
    (hnt : img.itype ≠ some "temp")
    (hfetch : env.fetch fname img.subfolder img.itype = some bytes) :
    (env.bucketSet = false →
      processImage env nid st img =
        { st with
            outputs := st.outputs ++ [⟨fname, "base64", env.b64 bytes⟩],
            fetched := st.fetched ++ [(fname, img.subfolder, img.itype)] }) ∧
    (∀ msg, env.bucketSet = true → env.s3 env.jobId bytes = .error msg →
      processImage env nid st img =
        { st with
            errors := st.errors ++ [s3FailMsg fname msg],
            fetched := st.fetched ++ [(fname, img.subfolder, img.itype)] }) := by
  have h1 : (img.itype == some "temp") = false := by simp [hnt]
  have h2 : (img.filename == none || img.filename == some "") = false := by
    simp [hfn, hne]
  constructor
  · intro hb
    simp [processImage, h1, h2, hfn, hfetch, hb, hne]
  · intro msg hb hs
    simp [processImage, h1, h2, hfn, hfetch, hb, hs, hne]

/-- The S3-path collection environment whose upload always fails. -/
def envS3Fail : CollectEnv :=
  ⟨fun _ _ _ => some [7], true, fun _ _ => .error "boom", fun _ => "imgdata", "job-1"⟩

/-- Counterexample to C6 as stated: with the sink configured and its upload
failing, the successfully fetched asset is not inlined — the run returns a
failure object whose only trace of the asset is the upload error entry. -/
theorem spec_c6_counterexample :
    afterLoop envS3Fail "p" true [] histOne =
      { images := none, errors := none, error := some "Job processing failed",
        details := some [s3FailMsg "a.png" "boom"], status := none } := by rfl

/-- Witness for C6 (amended): the failed S3 upload records the error entry
and drops the asset from the outputs. -/
theorem spec_c6_sink_amended_witness :
    processImage envS3Fail "9" ⟨[], [], []⟩ ⟨some "a.png", "", some "output"⟩ =
      ⟨[], [s3FailMsg "a.png" "boom"], [("a.png", "", some "output")]⟩ :=
  (spec_c6_sink_amended envS3Fail "9" ⟨[], [], []⟩
      ⟨some "a.png", "", some "output"⟩ "a.png" [7] rfl (by decide) (by decide)
      rfl).2 "boom" rfl rfl

/-! ## Lemmas about `queue_workflow` and the handler entry -/

lemma queue400Msg_ok (kvs : List (String × Json)) (ckpts : List String)
    (text : String)
    (h : ∀ v, kvs.lookup "node_errors" = some v → v.isObj = true) :
    ∃ m, queue400Msg kvs ckpts text = .ok m := by
  unfold queue400Msg
  cases hne : kvs.lookup "node_errors" with
  | none =>
    simp only [hne]
    iterate 6 (all_goals try split)
    all_goals exact ⟨_, rfl⟩
  | some v =>
    have hv := h v hne
    rw [Json.isObj_iff] at hv
    obtain ⟨nes, rfl⟩ := hv
    simp only [hne]
    iterate 6 (all_goals try split)
    all_goals exact ⟨_, rfl⟩

/-- C7 (amended): only an HTTP **400** response enters the validation
branch — it always raises a `ValueError` (aggregating the node-level error
entries, or the raw body when it cannot be parsed). A transport failure of
the post itself is re-raised as the requests exception, and any other
4xx/5xx status is raised by `raise_for_status` as a `requests.HTTPError`
(the submitter performs no retries: it issues exactly one post per call
by construction). -/
theorem spec_c7_submit_amended (ckpts : List String) (text m : String)
    (status : Nat) (kvs : List (String × Json)) (body : Option Json) :
    ((∀ v, kvs.lookup "node_errors" = some v → v.isObj = true) →
      ∃ msg, queueWorkflow (.resp 400 (some (.obj kvs)) text) ckpts =
        .ok (.valueError msg)) ∧
    (queueWorkflow (.resp 400 none text) ckpts =
      .ok (.valueError
        ("ComfyUI validation failed (could not parse error response): " ++ text))) ∧
    (queueWorkflow (.netError m) ckpts = .ok (.netError m)) ∧
    (status ≠ 400 → 400 ≤ status → status < 600 →
      queueWorkflow (.resp status body text) ckpts = .ok (.httpError status)) := by
  refine ⟨?_, rfl, rfl, ?_⟩
  · intro h
    obtain ⟨msg, hm⟩ := queue400Msg_ok kvs ckpts text h
    exact ⟨msg, by simp [queueWorkflow, hm]⟩
  · intro h1 h2 h3
    simp [queueWorkflow, h1, h2, h3]

/-- Counterexample to C7 as stated: an HTTP 422 rejection carrying a
structured validation error body (with `error` and `node_errors` fields)
is raised as a `requests.HTTPError` — a transport-style error, not the
permanent `ValueError`. -/
theorem spec_c7_counterexample :
    queueWorkflow (.resp 422 (some (.obj [("error", .str "invalid prompt"),
        ("node_errors", .obj [("5", .obj [("bad_input", .str "missing")])])]))
      "t") [] = .ok (.httpError 422) := by rfl

/-- Witness for C7 (amended): a plain 404 goes through `raise_for_status`. -/
theorem spec_c7_submit_amended_witness :
    queueWorkflow (.resp 404 none "nf") [] = .ok (.httpError 404) :=
  (spec_c7_submit_amended [] "nf" "" 404 [] none).2.2.2 (by decide) (by decide)
    (by decide)

/-- C10: the handler reads `job["input"]["fill.json"]`; when that key is
absent it raises a `KeyError` before validation ever runs, whereas a
validation failure (with the key present) is returned as a structured
`{"error": ...}` object. -/
theorem spec_c10_entry (parse : String → Option Json) (job : JobDict) :
    (job.input.lookup "fill.json" = none →
      handlerStart parse job = .error (.keyError "fill.json")) ∧
    (∀ ji msg, job.input.lookup "fill.json" = some ji →
      validateInput parse ji = .ok (.inl msg) →
      handlerStart parse job = .ok (.inl (mkTopError msg))) := by
  constructor
  · intro h
    simp [handlerStart, pySubscript, h]
  · intro ji msg h hv
    simp [handlerStart, pySubscript, h, hv]

/-- Witness for C10: a job whose input mapping lacks `"fill.json"` raises
`KeyError("fill.json")`; one that has it but no workflow gets the
structured validation error. -/
theorem spec_c10_entry_witness :
    handlerStart (fun _ => none) ⟨[("other", .null)], "id1"⟩ =
      .error (.keyError "fill.json") ∧
    handlerStart (fun _ => none) ⟨[("fill.json", .obj [])], "id1"⟩ =
      .ok (.inl (mkTopError "Missing 'workflow' parameter")) :=
  ⟨(spec_c10_entry (fun _ => none) ⟨[("other", .null)], "id1"⟩).1 rfl,
   (spec_c10_entry (fun _ => none) ⟨[("fill.json", .obj [])], "id1"⟩).2
     (.obj []) "Missing 'workflow' parameter" rfl rfl⟩
